import Mathlib

/-!
Shallow embedding of the `emergent` autonomous-agent core:
reliability monitoring (`reliability.py`), persisted state and memory
(`state_manager.py`), the control loop (`agent_v2.py`), and the
continuous-operation supervisor (`continuous.py`).

Python floats used for wall-clock time are modelled as `Int` seconds;
Python ints as `Int`/`Nat`.  Each `time.time()` call site becomes an
explicit `now` parameter.
-/

namespace Emergent

/-! ## ReliabilityMonitor (src/reliability.py) -/

/-- Constants set in `ReliabilityMonitor.__init__` and never mutated. -/
def loop_threshold : Nat := 3

def watchdog_timeout : Int := 1800

def token_waste_threshold : Int := 100000

/-- The mutable fields of `ReliabilityMonitor`: the `deque(maxlen=10)` of
recent action descriptors, the last-progress timestamp, and the token
accumulator since the last progress event. -/
structure ReliabilityMonitor where
  recent_actions : List String
  last_progress_time : Int
  total_tokens_since_progress : Int
  deriving Repr, DecidableEq

/-- Python `ReliabilityMonitor.__init__`, called at wall-clock time `now`. -/
def ReliabilityMonitor.init (now : Int) : ReliabilityMonitor :=
  { recent_actions := []
    last_progress_time := now
    total_tokens_since_progress := 0 }

/-- Python `deque(maxlen=10).append`: append and evict the oldest element once
the length exceeds 10. -/
def dequeAppend10 (xs : List String) (x : String) : List String :=
  let ys := xs ++ [x]
  if ys.length > 10 then ys.drop (ys.length - 10) else ys

/-- Python `ReliabilityMonitor.record_action(action, made_progress, tokens_used)`
at wall-clock time `now`. -/
def record_action (m : ReliabilityMonitor) (action : String)
    (made_progress : Bool) (tokens_used : Int) (now : Int) :
    ReliabilityMonitor :=
  let m := { m with
    recent_actions := dequeAppend10 m.recent_actions action
    total_tokens_since_progress := m.total_tokens_since_progress + tokens_used }
  if made_progress then
    { m with last_progress_time := now, total_tokens_since_progress := 0 }
  else m

/-- Python `ReliabilityMonitor.detect_loop`.  Note the faithful translation of
`recent = list(self.recent_actions)[-self.loop_threshold:]` (the last 3
descriptors) followed by the `len(recent) >= 4` alternation test. -/
def detect_loop (m : ReliabilityMonitor) : Option String :=
  if m.recent_actions.length < loop_threshold then none
  else
    let recent := m.recent_actions.drop (m.recent_actions.length - loop_threshold)
    if recent.dedup.length = 1 then some (recent.headD "")
    else if recent.length ≥ 4 then
      if recent.getD 0 "" = recent.getD 2 "" ∧ recent.getD 1 "" = recent.getD 3 "" then
        some ("alternating: " ++ recent.getD 0 "" ++ " <-> " ++ recent.getD 1 "")
      else none
    else none

/-- Python `ReliabilityMonitor.check_watchdog` at wall-clock time `now`. -/
def check_watchdog (m : ReliabilityMonitor) (now : Int) : Bool :=
  now - m.last_progress_time > watchdog_timeout

/-- Python `ReliabilityMonitor.check_token_waste`. -/
def check_token_waste (m : ReliabilityMonitor) : Bool :=
  m.total_tokens_since_progress > token_waste_threshold

/-- The dict returned by `ReliabilityMonitor.should_restart`. -/
structure RestartDecision where
  should_restart : Bool
  reason : Option String
  details : Option String
  deriving Repr, DecidableEq

/-- Truthiness of Python's `if loop:` on an `Optional[str]`: both `None`
and the empty string are falsy. -/
def truthy : Option String → Bool
  | none => false
  | some s => s ≠ ""

/-- Python `ReliabilityMonitor.should_restart` at wall-clock time `now`.
The loop branch is guarded by the truthiness test `if loop:`, so an
empty-string descriptor returned by `detect_loop` falls through to the
watchdog and token checks. -/
def should_restart (m : ReliabilityMonitor) (now : Int) : RestartDecision :=
  let loop := detect_loop m
  if truthy loop then
      { should_restart := true
        reason := some "loop_detected"
        details := some ("Agent stuck repeating: " ++ loop.getD "") }
  else
      if check_watchdog m now then
        { should_restart := true
          reason := some "watchdog_timeout"
          details := some ("No progress for " ++ toString (now - m.last_progress_time) ++ "s") }
      else if check_token_waste m then
        { should_restart := true
          reason := some "token_waste"
          details := some ("Used " ++ toString m.total_tokens_since_progress
            ++ " tokens without progress") }
      else
        { should_restart := false, reason := none, details := none }

/-- A sequence of `record_action` calls: descriptor, made_progress,
tokens_used, wall-clock time of the call. -/
def apply_actions (m : ReliabilityMonitor) :
    List (String × Bool × Int × Int) → ReliabilityMonitor
  | [] => m
  | (a, p, tok, t) :: rest => apply_actions (record_action m a p tok t) rest

/-! ## StateManager (src/state_manager.py) -/

/-- One entry of `state["recent_actions"]` as built by `add_action`. -/
structure ActionEntry where
  timestamp : String
  action : String
  success : Bool
  summary : String
  deriving Repr, DecidableEq

/-- The fields of `result` read by `add_action`
(`result.get("success", False)`, `result.get("summary", "")`). -/
structure ActionResult where
  success : Bool
  summary : String
  deriving Repr, DecidableEq

/-- The persisted agent state dict (`_create_initial_state` lists its
fields).  `version`, `initialized_at` and `session_start` are immutable
strings irrelevant to the transitions and omitted. -/
structure AgentState where
  current_working_directory : String
  files_in_context : List String
  recent_actions : List ActionEntry
  current_phase : String
  actions_since_reflection : Nat
  last_reflection : Option String
  total_actions : Nat
  goal_set : Bool
  project_initialized : Bool
  deriving Repr, DecidableEq

/-- Python `StateManager.add_action(state, action, result)`, stamping the new
entry with wall-clock time `now` (`datetime.utcnow().isoformat()`). -/
def add_action (state : AgentState) (action : String) (result : ActionResult)
    (now : String) : AgentState :=
  let entry : ActionEntry :=
    { timestamp := now
      action := action
      success := result.success
      summary := result.summary }
  let ra := state.recent_actions ++ [entry]
  let ra := if ra.length > 20 then ra.drop (ra.length - 20) else ra
  { state with
    recent_actions := ra
    total_actions := state.total_actions + 1
    actions_since_reflection := state.actions_since_reflection + 1 }

/-- Python `StateManager.should_reflect(state)`. -/
def should_reflect (state : AgentState) : Bool :=
  state.actions_since_reflection ≥ 10

/-- Python `StateManager.mark_reflection(state)` at wall-clock time `now`. -/
def mark_reflection (state : AgentState) (now : String) : AgentState :=
  { state with
    last_reflection := some now
    actions_since_reflection := 0 }

/-- Contents of the four memory files; `none` means the file does not
exist on disk. -/
structure MemoryFS where
  goals : Option String
  progress : Option String
  decisions : Option String
  blockers : Option String
  deriving Repr, DecidableEq

/-- Python `StateManager.load_memory()`: the returned dict, as an association
list in insertion order — each key present exactly when its file
exists. -/
def load_memory (fs : MemoryFS) : List (String × String) :=
  (match fs.goals with | some c => [("goals", c)] | none => [])
  ++ (match fs.progress with | some c => [("progress", c)] | none => [])
  ++ (match fs.decisions with | some c => [("decisions", c)] | none => [])
  ++ (match fs.blockers with | some c => [("blockers", c)] | none => [])

/-- Python `StateManager.update_memory_file(file_type, content)`: writes the
named file, or raises `ValueError` for an unknown kind. -/
def update_memory_file (fs : MemoryFS) (file_type content : String) :
    Except String MemoryFS :=
  if file_type = "goals" then .ok { fs with goals := some content }
  else if file_type = "progress" then .ok { fs with progress := some content }
  else if file_type = "decisions" then .ok { fs with decisions := some content }
  else if file_type = "blockers" then .ok { fs with blockers := some content }
  else .error ("Unknown memory file type: " ++ file_type)

/-! ## ControlLoop (src/agent_v2.py, `AutonomousAgentV2.run`)

The external decision collaborator and tool dispatcher are modelled as
an oracle `ev : Nat → LoopEvent` giving, for each iteration, what the
`try` body observes: an exception while deciding/dispatching, a list of
tool calls with their dispatched results, a content-only reply, or a
`KeyboardInterrupt`. -/

/-- What one iteration of the `while` body in `run` observes. -/
inductive LoopEvent where
  /-- An exception (other than `KeyboardInterrupt`) raised while
  obtaining the completion or dispatching a tool; `msg` is `str(e)`. -/
  | exc (msg : String)
  /-- Field `assistant_message.tool_calls`: each call's function name, its
  serialized arguments, and the `ToolResult` returned by
  `_execute_tool`. -/
  | toolCalls (calls : List (String × String × ActionResult))
  /-- A reply with no tool calls (content only). -/
  | noTool
  /-- A `KeyboardInterrupt` delivered during the iteration. -/
  | interrupt

/-- The inner `for tool_call in assistant_message.tool_calls` loop:
records each call via `add_action` under the descriptor
`f"{name}({args})"`; on `complete_goal` sets `self.running = False` and
breaks.  Returns the updated state and the `running` flag. -/
def process_tool_calls (state : AgentState) (now : String) :
    List (String × String × ActionResult) → AgentState × Bool
  | [] => (state, true)
  | (name, args, result) :: rest =>
      let state := add_action state (name ++ "(" ++ args ++ ")") result now
      if name = "complete_goal" then (state, false)
      else process_tool_calls state now rest

/-- The `while self.running and iteration < max_iterations` loop of
`run`.  `fuel` is `max_iterations - iteration`; `i` the current
iteration index (for the oracle and clock); the returned list is the
trace of `save_state` calls in order. -/
def run_loop (ev : Nat → LoopEvent) (clock : Nat → String) :
    Nat → Nat → AgentState → List AgentState → AgentState × List AgentState
  | 0, _, state, saved => (state, saved)
  | fuel + 1, i, state, saved =>
      let state := if should_reflect state then mark_reflection state (clock i) else state
      match ev i with
      | .exc msg =>
          let state := add_action state "error"
            { success := false, summary := "Error: " ++ msg } (clock i)
          run_loop ev clock fuel (i + 1) state (saved ++ [state])
      | .toolCalls calls =>
          let (state, running) := process_tool_calls state (clock i) calls
          let saved := saved ++ [state]
          if running then run_loop ev clock fuel (i + 1) state saved
          else (state, saved)
      | .noTool =>
          run_loop ev clock fuel (i + 1) state (saved ++ [state])
      | .interrupt =>
          (state, saved ++ [state])

/-! ## SessionSupervisor (src/continuous.py, `ContinuousRunner`) -/

/-- What `agent.run` does inside one `run_session` call. -/
inductive SessionOutcome where
  /-- Returns normally with this `total_actions` in the final state. -/
  | ok (total_actions : Nat)
  /-- Raises an exception with text `msg`. -/
  | exn (msg : String)
  deriving Repr, DecidableEq

/-- One session as scheduled by the environment: its outcome, the wall
clock it consumes, and whether `.agent_state.json` shows
`current_phase == "complete"` afterwards. -/
structure SessionSpec where
  outcome : SessionOutcome
  duration : Nat
  complete_after : Bool
  deriving Repr, DecidableEq

/-- The dict returned by `ContinuousRunner.run_session`. -/
structure SessionResult where
  success : Bool
  duration : Nat
  total_actions : Nat
  error : Option String
  deriving Repr, DecidableEq

/-- Python `ContinuousRunner.run_session`: a normal return is reported as
success; any exception other than `KeyboardInterrupt` is caught and
reported as a failed result carrying `str(e)`. -/
def run_session (spec : SessionSpec) : SessionResult :=
  match spec.outcome with
  | .ok n => { success := true, duration := spec.duration, total_actions := n, error := none }
  | .exn e => { success := false, duration := spec.duration, total_actions := 0, error := some e }

/-- The `stats` dict of `run_continuous` (fixed header fields plus the
counters mutated by the loop; `errors` keeps the error texts). -/
structure OperationStats where
  goal : String
  duration_hours : Nat
  sessions_completed : Nat
  sessions_failed : Nat
  total_actions : Nat
  total_runtime : Nat
  errors : List String
  deriving Repr, DecidableEq

/-- The `stats` initializer at the top of `run_continuous`. -/
def init_stats (goal : String) (duration_hours : Nat) : OperationStats :=
  { goal := goal
    duration_hours := duration_hours
    sessions_completed := 0
    sessions_failed := 0
    total_actions := 0
    total_runtime := 0
    errors := [] }

/-- Result of the supervision loop: final stats, number of sessions
started, and the trace of `update_stats` persistence calls. -/
structure RunOutcome where
  stats : OperationStats
  sessions_started : Nat
  persisted : List OperationStats
  deriving Repr, DecidableEq

/-- The `while time.time() < end_time` loop of `run_continuous`.  `now`
is the wall clock at the loop test; each session advances it by its
duration, and the restart delay is added when the budget is still
open.  `specs` is the environment's supply of sessions (exhaustion
stops the model). -/
def run_continuous_loop (end_time : Int) (restart_delay : Nat) :
    Int → List SessionSpec → OperationStats → List OperationStats → RunOutcome
  | _, [], stats, persisted => { stats := stats, sessions_started := 0, persisted := persisted }
  | now, spec :: rest, stats, persisted =>
      if now < end_time then
        let result := run_session spec
        let stats :=
          if result.success then
            { stats with
              sessions_completed := stats.sessions_completed + 1
              total_actions := stats.total_actions + result.total_actions }
          else
            { stats with
              sessions_failed := stats.sessions_failed + 1
              errors := stats.errors ++ [result.error.getD ""] }
        let stats := { stats with total_runtime := stats.total_runtime + result.duration }
        let persisted := persisted ++ [stats]
        let now := now + (spec.duration : Int)
        if spec.complete_after then
          { stats := stats, sessions_started := 1, persisted := persisted }
        else
          let now := if now < end_time then now + (restart_delay : Int) else now
          let r := run_continuous_loop end_time restart_delay now rest stats persisted
          { r with sessions_started := r.sessions_started + 1 }
      else { stats := stats, sessions_started := 0, persisted := persisted }

/-- Python `ContinuousRunner.run_continuous(goal, duration_hours, ...)` started
at wall-clock time `start_time`, with the default restart delay of 10
seconds. -/
def run_continuous (goal : String) (duration_hours : Nat) (start_time : Int)
    (specs : List SessionSpec) : RunOutcome :=
  let end_time := start_time + (duration_hours : Int) * 3600
  run_continuous_loop end_time 10 start_time specs (init_stats goal duration_hours) []

/-! ## Theorems -/

/-- C1: evaluating `detect_loop` on the claim's example recordings.  The
identical-repetition cases `[A,A,A]`, `[A,A,A,A]` return `A` and the
distinct case `[A,B,C]` returns none, as claimed — but the 2-cycle
alternation `[A,B,A,B]` returns none, not the alternating pair: the
slice `list(recent_actions)[-3:]` always has exactly 3 elements, so the
`len(recent) >= 4` alternation branch can never fire. -/
theorem detect_loop_examples :
    detect_loop (apply_actions (.init 0)
      [("a", false, 0, 1), ("a", false, 0, 2), ("a", false, 0, 3)]) = some "a" ∧
    detect_loop (apply_actions (.init 0)
      [("a", false, 0, 1), ("a", false, 0, 2), ("a", false, 0, 3),
       ("a", false, 0, 4)]) = some "a" ∧
    detect_loop (apply_actions (.init 0)
      [("a", false, 0, 1), ("b", false, 0, 2), ("c", false, 0, 3)]) = none ∧
    detect_loop (apply_actions (.init 0)
      [("a", false, 0, 1), ("b", false, 0, 2), ("a", false, 0, 3),
       ("b", false, 0, 4)]) = none := by
  refine ⟨rfl, rfl, rfl, rfl⟩

/-- C2: `should_restart` evaluates loop detection, watchdog, token waste
in strict priority order, returning the first positive trigger with its
descriptive reason, and the no-trigger case returns a no-restart result.
Positivity of the loop trigger is Python's truthiness test `if loop:`,
so a detected non-empty descriptor fires the loop branch and both
`None` and an empty descriptor fall through (`truthy`).  In particular
three consecutive `record_action("run_command(pytest)",
made_progress=False)` calls on a fresh monitor yield reason
"loop_detected" with the descriptor in the details. -/
theorem should_restart_priority (m : ReliabilityMonitor) (now : Int) :
    (∀ l, detect_loop m = some l → l ≠ "" →
      should_restart m now =
        { should_restart := true
          reason := some "loop_detected"
          details := some ("Agent stuck repeating: " ++ l) }) ∧
    (truthy (detect_loop m) = false → check_watchdog m now = true →
      should_restart m now =
        { should_restart := true
          reason := some "watchdog_timeout"
          details := some ("No progress for " ++ toString (now - m.last_progress_time) ++ "s") }) ∧
    (truthy (detect_loop m) = false → check_watchdog m now = false →
      check_token_waste m = true →
      should_restart m now =
        { should_restart := true
          reason := some "token_waste"
          details := some ("Used " ++ toString m.total_tokens_since_progress
            ++ " tokens without progress") }) ∧
    (truthy (detect_loop m) = false → check_watchdog m now = false →
      check_token_waste m = false →
      should_restart m now = { should_restart := false, reason := none, details := none }) ∧
    (∀ t0 t1 t2 t3 k1 k2 k3 : Int,
      should_restart
        (record_action (record_action (record_action (ReliabilityMonitor.init t0)
          "run_command(pytest)" false k1 t1)
          "run_command(pytest)" false k2 t2)
          "run_command(pytest)" false k3 t3) now =
        { should_restart := true
          reason := some "loop_detected"
          details := some "Agent stuck repeating: run_command(pytest)" }) := by
  refine ⟨?_, ?_, ?_, ?_, ?_⟩
  · intro l h hne
    simp [should_restart, truthy, h, hne]
  · intro h1 h2
    simp [should_restart, h1, h2]
  · intro h1 h2 h3
    simp [should_restart, h1, h2, h3]
  · intro h1 h2 h3
    simp [should_restart, h1, h2, h3]
  · intro t0 t1 t2 t3 k1 k2 k3
    rfl

/-- C2 witness: a monitor whose last three descriptors repeat a
non-empty descriptor and whose watchdog and token triggers would also
both fire still restarts with reason "loop_detected". -/
theorem should_restart_priority_witness :
    detect_loop ⟨["a", "a", "a"], 0, 200000⟩ = some "a" ∧
    "a" ≠ "" ∧
    should_restart ⟨["a", "a", "a"], 0, 200000⟩ 100000 =
      { should_restart := true
        reason := some "loop_detected"
        details := some "Agent stuck repeating: a" } :=
  ⟨rfl, by decide,
    (should_restart_priority ⟨["a", "a", "a"], 0, 200000⟩ 100000).1 "a" rfl (by decide)⟩

/-- C4: every `add_action` call leaves the recent-action history at
length at most 20, evicting oldest entries first (the new history is a
suffix of the old history plus the new entry), and increments
`total_actions` by exactly one. -/
theorem add_action_history_bound (state : AgentState) (action : String)
    (result : ActionResult) (now : String) :
    (add_action state action result now).recent_actions.length ≤ 20 ∧
    (add_action state action result now).recent_actions <:+
      (state.recent_actions ++
        [{ timestamp := now, action := action
           success := result.success, summary := result.summary }]) ∧
    (add_action state action result now).total_actions = state.total_actions + 1 := by
  refine ⟨?_, ?_, rfl⟩
  · simp only [add_action]
    split
    · rename_i h
      simp only [List.length_drop]
      omega
    · rename_i h
      omega
  · simp only [add_action]
    split
    · exact List.drop_suffix _ _
    · exact List.suffix_refl _

/-- C5: `should_reflect` holds exactly when at least 10 actions have
happened since the last reflection, and `mark_reflection` resets the
counter to exactly 0 while stamping `last_reflection` with the current
time. -/
theorem should_reflect_mark_reflection (state : AgentState) (now : String) :
    (should_reflect state = true ↔ 10 ≤ state.actions_since_reflection) ∧
    (mark_reflection state now).actions_since_reflection = 0 ∧
    (mark_reflection state now).last_reflection = some now := by
  refine ⟨?_, rfl, rfl⟩
  simp [should_reflect]

/-- C6: `record_action` adds `tokens_used` to the accumulator and then
zeroes it (stamping the last-progress time with `now`) exactly when
`made_progress` is true; `check_token_waste` holds iff the accumulator
strictly exceeds 100000. -/
theorem record_action_token_accumulator (m : ReliabilityMonitor) (a : String)
    (p : Bool) (tok now : Int) :
    (record_action m a p tok now).total_tokens_since_progress =
      (if p then 0 else m.total_tokens_since_progress + tok) ∧
    (record_action m a p tok now).last_progress_time =
      (if p then now else m.last_progress_time) ∧
    (check_token_waste m = true ↔ 100000 < m.total_tokens_since_progress) := by
  refine ⟨?_, ?_, ?_⟩
  · cases p <;> simp [record_action]
  · cases p <;> simp [record_action]
  · simp [check_token_waste, token_waste_threshold]

/-- C3 counterexample: a run with a zero-hour duration budget and a
session available to run starts zero sessions — the claim that at least
one session executes is false, because the `while time.time() < end_time`
test precedes the first session. -/
theorem run_continuous_zero_budget_counterexample :
    ¬ 1 ≤ (run_continuous "g" 0 100
      [{ outcome := .ok 5, duration := 7, complete_after := false }]).sessions_started := by
  decide

/-- C3 (amended): a `run_continuous` call with a zero-hour duration
budget executes no sessions at all: the duration check runs before each
session, so it halts the run immediately. -/
theorem run_continuous_zero_budget (goal : String) (start : Int)
    (specs : List SessionSpec) :
    (run_continuous goal 0 start specs).sessions_started = 0 := by
  cases specs with
  | nil => rfl
  | cons spec rest => simp [run_continuous, run_continuous_loop]

/-- Lookup of the goals key in the loaded memory dict gives exactly the
goals file's content. -/
theorem lookup_load_memory_goals (fs : MemoryFS) :
    (load_memory fs).lookup "goals" = fs.goals := by
  rcases fs with ⟨g, p, d, b⟩
  cases g <;> cases p <;> cases d <;> cases b <;> rfl

/-- Lookup of the progress key in the loaded memory dict gives exactly
the progress file's content. -/
theorem lookup_load_memory_progress (fs : MemoryFS) :
    (load_memory fs).lookup "progress" = fs.progress := by
  rcases fs with ⟨g, p, d, b⟩
  cases g <;> cases p <;> cases d <;> cases b <;> rfl

/-- Lookup of the decisions key in the loaded memory dict gives exactly
the decisions file's content. -/
theorem lookup_load_memory_decisions (fs : MemoryFS) :
    (load_memory fs).lookup "decisions" = fs.decisions := by
  rcases fs with ⟨g, p, d, b⟩
  cases g <;> cases p <;> cases d <;> cases b <;> rfl

/-- Lookup of the blockers key in the loaded memory dict gives exactly
the blockers file's content. -/
theorem lookup_load_memory_blockers (fs : MemoryFS) :
    (load_memory fs).lookup "blockers" = fs.blockers := by
  rcases fs with ⟨g, p, d, b⟩
  cases g <;> cases p <;> cases d <;> cases b <;> rfl

/-- C9: for each of the four document kinds, `update_memory_file`
followed by `load_memory` yields that entry equal to the new content
with the other three entries (presence included) exactly as before. -/
theorem update_memory_file_roundtrip (fs : MemoryFS) (X : String) :
    (∃ fs2, update_memory_file fs "goals" X = .ok fs2 ∧
      (load_memory fs2).lookup "goals" = some X ∧
      (load_memory fs2).lookup "progress" = (load_memory fs).lookup "progress" ∧
      (load_memory fs2).lookup "decisions" = (load_memory fs).lookup "decisions" ∧
      (load_memory fs2).lookup "blockers" = (load_memory fs).lookup "blockers") ∧
    (∃ fs2, update_memory_file fs "progress" X = .ok fs2 ∧
      (load_memory fs2).lookup "progress" = some X ∧
      (load_memory fs2).lookup "goals" = (load_memory fs).lookup "goals" ∧
      (load_memory fs2).lookup "decisions" = (load_memory fs).lookup "decisions" ∧
      (load_memory fs2).lookup "blockers" = (load_memory fs).lookup "blockers") ∧
    (∃ fs2, update_memory_file fs "decisions" X = .ok fs2 ∧
      (load_memory fs2).lookup "decisions" = some X ∧
      (load_memory fs2).lookup "goals" = (load_memory fs).lookup "goals" ∧
      (load_memory fs2).lookup "progress" = (load_memory fs).lookup "progress" ∧
      (load_memory fs2).lookup "blockers" = (load_memory fs).lookup "blockers") ∧
    (∃ fs2, update_memory_file fs "blockers" X = .ok fs2 ∧
      (load_memory fs2).lookup "blockers" = some X ∧
      (load_memory fs2).lookup "goals" = (load_memory fs).lookup "goals" ∧
      (load_memory fs2).lookup "progress" = (load_memory fs).lookup "progress" ∧
      (load_memory fs2).lookup "decisions" = (load_memory fs).lookup "decisions") := by
  refine ⟨⟨{ fs with goals := some X }, rfl, ?_, ?_, ?_, ?_⟩,
    ⟨{ fs with progress := some X }, rfl, ?_, ?_, ?_, ?_⟩,
    ⟨{ fs with decisions := some X }, rfl, ?_, ?_, ?_, ?_⟩,
    ⟨{ fs with blockers := some X }, rfl, ?_, ?_, ?_, ?_⟩⟩ <;>
  simp [lookup_load_memory_goals, lookup_load_memory_progress,
    lookup_load_memory_decisions, lookup_load_memory_blockers]

/-- A sequence of `record_action` calls none of which is flagged as
progress never moves the last-progress timestamp. -/
theorem apply_actions_no_progress_time (m : ReliabilityMonitor)
    (calls : List (String × Bool × Int × Int))
    (h : ∀ c ∈ calls, c.2.1 = false) :
    (apply_actions m calls).last_progress_time = m.last_progress_time := by
  induction calls generalizing m with
  | nil => rfl
  | cons c rest ih =>
      obtain ⟨a, p, tok, t⟩ := c
      have hp : p = false := h _ (List.mem_cons_self _ _)
      subst hp
      rw [apply_actions, ih _ (fun c hc => h c (List.mem_cons_of_mem _ hc))]
      simp [record_action]

/-- C10: a monitor constructed at time `t0` on which no call ever
reported progress keeps `t0` as its last-progress timestamp; its
watchdog is false whenever fewer than 1800 seconds have elapsed since
construction and fires exactly once more than 1800 seconds have
elapsed since construction. -/
theorem check_watchdog_fresh_monitor (t0 : Int)
    (calls : List (String × Bool × Int × Int)) (now : Int)
    (h : ∀ c ∈ calls, c.2.1 = false) :
    (apply_actions (ReliabilityMonitor.init t0) calls).last_progress_time = t0 ∧
    (now - t0 < 1800 →
      check_watchdog (apply_actions (ReliabilityMonitor.init t0) calls) now = false) ∧
    (check_watchdog (apply_actions (ReliabilityMonitor.init t0) calls) now = true ↔
      1800 < now - t0) := by
  have hl : (apply_actions (ReliabilityMonitor.init t0) calls).last_progress_time = t0 :=
    apply_actions_no_progress_time _ _ h
  refine ⟨hl, ?_, ?_⟩
  · intro hlt
    simp only [check_watchdog, hl, watchdog_timeout, decide_eq_false_iff_not, not_lt]
    omega
  · simp only [check_watchdog, hl, watchdog_timeout, decide_eq_true_eq]

/-- C10 witness: after one non-progress call on a monitor built at time
0, the watchdog at time 200 is still false. -/
theorem check_watchdog_fresh_monitor_witness :
    (∀ c ∈ [("a", false, (5 : Int), (100 : Int))], c.2.1 = false) ∧
    ((200 : Int) - 0 < 1800 →
      check_watchdog (apply_actions (ReliabilityMonitor.init 0)
        [("a", false, 5, 100)]) 200 = false) :=
  ⟨by decide,
    (check_watchdog_fresh_monitor 0 [("a", false, 5, 100)] 200 (by decide)).2.1⟩

/-- The entry just recorded by `add_action` is always the last entry of
the trimmed history. -/
theorem add_action_getLast (state : AgentState) (action : String)
    (result : ActionResult) (now : String) :
    (add_action state action result now).recent_actions.getLast? =
      some { timestamp := now, action := action
             success := result.success, summary := result.summary } := by
  simp only [add_action]
  split
  · rename_i h
    rw [List.drop_append_of_le_length
      (by simp only [List.length_append, List.length_singleton]; omega)]
    exact List.getLast?_concat _
  · exact List.getLast?_concat _

/-- C7: when the oracle reports an exception (not an interrupt) while
deciding or dispatching at iteration `i`, the loop body catches it: the
state after the reflection check gains exactly one failed ActionRecord
with descriptor "error" and summary `"Error: " ++ msg`, that state is
saved, and the loop proceeds to iteration `i + 1` instead of
terminating. -/
theorem run_loop_exception_recovers (ev : Nat → LoopEvent) (clock : Nat → String)
    (fuel i : Nat) (state : AgentState) (saved : List AgentState) (msg : String)
    (h : ev i = .exc msg) :
    let s1 := if should_reflect state then mark_reflection state (clock i) else state
    let s2 := add_action s1 "error" { success := false, summary := "Error: " ++ msg } (clock i)
    run_loop ev clock (fuel + 1) i state saved =
      run_loop ev clock fuel (i + 1) s2 (saved ++ [s2]) ∧
    s2.recent_actions.getLast? =
      some { timestamp := clock i, action := "error"
             success := false, summary := "Error: " ++ msg } ∧
    s2.total_actions = s1.total_actions + 1 := by
  refine ⟨?_, add_action_getLast _ _ _ _, rfl⟩
  simp only [run_loop, h]

/-- C7 witness: with an oracle that always raises "boom", one iteration
from a fresh-looking state reduces to the continuation on the
error-recorded state, whose last history entry is the failed "error"
record. -/
theorem run_loop_exception_recovers_witness :
    ((fun _ => LoopEvent.exc "boom") 0 = LoopEvent.exc "boom") ∧
    (let s1 := if should_reflect
        { current_working_directory := "/w", files_in_context := []
          recent_actions := [], current_phase := "initialization"
          actions_since_reflection := 0, last_reflection := none
          total_actions := 0, goal_set := false, project_initialized := false }
      then mark_reflection
        { current_working_directory := "/w", files_in_context := []
          recent_actions := [], current_phase := "initialization"
          actions_since_reflection := 0, last_reflection := none
          total_actions := 0, goal_set := false, project_initialized := false }
        ((fun _ => "t0") 0)
      else
        { current_working_directory := "/w", files_in_context := []
          recent_actions := [], current_phase := "initialization"
          actions_since_reflection := 0, last_reflection := none
          total_actions := 0, goal_set := false, project_initialized := false }
    let s2 := add_action s1 "error"
      { success := false, summary := "Error: " ++ "boom" } ((fun _ => "t0") 0)
    run_loop (fun _ => LoopEvent.exc "boom") (fun _ => "t0") (0 + 1) 0
        { current_working_directory := "/w", files_in_context := []
          recent_actions := [], current_phase := "initialization"
          actions_since_reflection := 0, last_reflection := none
          total_actions := 0, goal_set := false, project_initialized := false } [] =
      run_loop (fun _ => LoopEvent.exc "boom") (fun _ => "t0") 0 (0 + 1) s2 ([] ++ [s2]) ∧
    s2.recent_actions.getLast? =
      some { timestamp := (fun _ => "t0") 0, action := "error"
             success := false, summary := "Error: " ++ "boom" } ∧
    s2.total_actions = s1.total_actions + 1) :=
  ⟨rfl, run_loop_exception_recovers (fun _ => LoopEvent.exc "boom") (fun _ => "t0") 0 0
    { current_working_directory := "/w", files_in_context := []
      recent_actions := [], current_phase := "initialization"
      actions_since_reflection := 0, last_reflection := none
      total_actions := 0, goal_set := false, project_initialized := false } [] "boom" rfl⟩

/-- C8: when the duration budget is still open and the next session
raises an exception, the supervisor records it as a failed session
(`sessions_failed` incremented, the exception text appended to the
error log), persists those stats, and continues the loop on the
remaining sessions, counting this one as started. -/
theorem run_continuous_session_failure (end_time : Int) (delay : Nat) (now : Int)
    (msg : String) (d : Nat) (rest : List SessionSpec)
    (stats : OperationStats) (persisted : List OperationStats)
    (h : now < end_time) :
    let stats2 : OperationStats :=
      { stats with
        sessions_failed := stats.sessions_failed + 1
        errors := stats.errors ++ [msg]
        total_runtime := stats.total_runtime + d }
    let now2 : Int := if now + (d : Int) < end_time then now + d + delay else now + d
    let r := run_continuous_loop end_time delay now2 rest stats2 (persisted ++ [stats2])
    run_continuous_loop end_time delay now
        ({ outcome := .exn msg, duration := d, complete_after := false } :: rest)
        stats persisted =
      { stats := r.stats, sessions_started := r.sessions_started + 1
        persisted := r.persisted } ∧
    stats2.sessions_failed = stats.sessions_failed + 1 ∧
    stats2.errors = stats.errors ++ [msg] := by
  refine ⟨?_, rfl, rfl⟩
  simp only [run_continuous_loop, run_session, if_pos h]
  rfl

/-- C8 witness: with budget 1000s open at time 0, a session failing with
"boom" followed by a successful one is recorded as failed and the loop
continues into the successor session. -/
theorem run_continuous_session_failure_witness :
    (0 : Int) < 1000 ∧
    (let stats2 : OperationStats :=
      { init_stats "g" 1 with
        sessions_failed := (init_stats "g" 1).sessions_failed + 1
        errors := (init_stats "g" 1).errors ++ ["boom"]
        total_runtime := (init_stats "g" 1).total_runtime + 7 }
    let now2 : Int := if (0 : Int) + (7 : Nat) < 1000 then 0 + 7 + 10 else 0 + 7
    let r := run_continuous_loop 1000 10 now2
      [{ outcome := .ok 5, duration := 3, complete_after := false }] stats2 ([] ++ [stats2])
    run_continuous_loop 1000 10 0
        ({ outcome := .exn "boom", duration := 7, complete_after := false } ::
          [{ outcome := .ok 5, duration := 3, complete_after := false }])
        (init_stats "g" 1) [] =
      { stats := r.stats, sessions_started := r.sessions_started + 1
        persisted := r.persisted } ∧
    stats2.sessions_failed = (init_stats "g" 1).sessions_failed + 1 ∧
    stats2.errors = (init_stats "g" 1).errors ++ ["boom"]) :=
  ⟨by decide,
    run_continuous_session_failure 1000 10 0 "boom" 7
      [{ outcome := .ok 5, duration := 3, complete_after := false }]
      (init_stats "g" 1) [] (by decide)⟩

end Emergent
